import Mathlib

/-!
Verification of the McGill course-advisory engine
(`mcgill_advisor.py`, both the single-file and backend variants).

The Python code is shallowly embedded: pandas dataframes become lists of
records plus column-presence flags, floats become rationals, missing cells
(NaN) become `Option`, and the Python string operations used by the code
(`upper`, `lower`, `strip`, slicing, substring test) are modelled on
`List Char` for the ASCII data the engine manipulates.
-/

namespace Advisor

/-- Model of Python `str.upper` on one character (ASCII range, which is all
the course data uses): map a lowercase letter (codes 97..122) to the
corresponding uppercase letter, leave any other character unchanged. -/
def upChar (c : Char) : Char :=
  if h : 97 ≤ c.toNat ∧ c.toNat ≤ 122 then
    Char.ofNatAux (c.toNat - 32) (Or.inl (by omega))
  else c

/-- Model of Python `str.lower` on one character (ASCII range). -/
def lowChar (c : Char) : Char :=
  if h : 65 ≤ c.toNat ∧ c.toNat ≤ 90 then
    Char.ofNatAux (c.toNat + 32) (Or.inl (by omega))
  else c

/-- Remove trailing elements satisfying `p` (helper for `str.strip`). -/
def dropEndWhile (p : α → Bool) (l : List α) : List α :=
  ((l.reverse).dropWhile p).reverse

/-- Model of Python `str.strip()` on a character list: remove leading and
trailing whitespace. -/
def stripList (l : List Char) : List Char :=
  dropEndWhile Char.isWhitespace (l.dropWhile Char.isWhitespace)

/-- Model of Python `str.strip()`. -/
def stripStr (s : String) : String := ⟨stripList s.data⟩

/-- Model of Python `str.upper()`. -/
def upStr (s : String) : String := ⟨s.data.map upChar⟩

/-- Model of Python `str.lower()`. -/
def lowStr (s : String) : String := ⟨s.data.map lowChar⟩

/-- Model of Python slicing `s[:n]`. -/
def strTake (n : Nat) (s : String) : String := ⟨s.data.take n⟩

/-- Model of Python `len(s)`. -/
def strLen (s : String) : Nat := s.data.length

/-- Boolean prefix test on character lists. -/
def isPrefixChars : List Char → List Char → Bool
  | [], _ => true
  | _ :: _, [] => false
  | a :: as, b :: bs => a == b && isPrefixChars as bs

/-- Boolean substring test (`pat in hay` in Python). -/
def containsSub (pat : List Char) : List Char → Bool
  | [] => pat.isEmpty
  | c :: rest => isPrefixChars pat (c :: rest) || containsSub pat rest

/-- Model of Python `str.strip(chr)` for a single character `q`:
remove all leading and trailing occurrences of `q`. -/
def stripCharStr (q : Char) (s : String) : String :=
  ⟨dropEndWhile (· == q) (s.data.dropWhile (· == q))⟩

/-! ## Data model

`Row` is one normalized course record (a row of the cleaned dataframe);
a `none` field models a pandas `NaN` cell.  `DataFrame` carries the rows
together with column-presence flags, because the Python code branches on
`'Class Ave' in df.columns` / `'Credits' in df.columns`. -/

structure Row where
  course : String
  classAve : Option ℚ
  credits : Option ℚ
  term : Option String
deriving DecidableEq, Repr

structure DataFrame where
  rows : List Row
  hasClassAve : Bool
  hasCredits : Bool
deriving DecidableEq, Repr

/-- The `DifficultyLevel` enum of the source. -/
inductive DifficultyLevel where
  | easy | moderate | challenging | veryHard
deriving DecidableEq, Repr

/-- The `.value` numeric projection of the enum (1..4). -/
def DifficultyLevel.val : DifficultyLevel → ℚ
  | .easy => 1
  | .moderate => 2
  | .challenging => 3
  | .veryHard => 4

/-- The student profile dictionary built by `create_student_profile`,
restricted to the fields the scoring engine reads. -/
structure StudentProfile where
  current_gpa : ℚ
  completed_courses : List String
  strong_subjects : List String
  difficulty_preference : DifficultyLevel
deriving DecidableEq, Repr

/-- Tag for one string produced by `_generate_reasons`; the float
formatting inside the Python strings is abstracted away, the firing
condition of each rule is kept. -/
inductive ReasonTag where
  | highPredicted | highClassAvg | strongSubject (s : String) | difficultyMatch | manageable
deriving DecidableEq, Repr

/-- Tag for one string produced by `_generate_warnings`. -/
inductive WarningTag where
  | highDifficulty | belowAverage | challengingForGpa
deriving DecidableEq, Repr

/-- The `CourseRecommendation` dataclass. -/
structure CourseRecommendation where
  course_code : String
  course_name : String
  predicted_grade : ℚ
  difficulty_score : ℚ
  class_average : Option ℚ
  credits : ℤ
  reasons : List ReasonTag
  warnings : List WarningTag
  confidence : ℚ
  term_offered : String
deriving DecidableEq, Repr

/-! ## Prediction engine (`predict_student_grade`, `calculate_difficulty_score`) -/

/-- `self.df[self.df['Course'] == course_code.upper()]`. -/
def matchingRows (df : DataFrame) (code : String) : List Row :=
  df.rows.filter (fun r => r.course == upStr code)

/-- The class averages that actually enter the pandas mean for a course:
the non-NaN `Class Ave` cells of the matching rows, or nothing at all when
the frame has no `Class Ave` column. -/
def presentAves (df : DataFrame) (code : String) : List ℚ :=
  if df.hasClassAve then (matchingRows df code).filterMap (fun r => r.classAve) else []

/-- Pandas `Series.mean` over the present values. -/
def listMean (l : List ℚ) : ℚ := l.sum / (l.length : ℚ)

/-- Python `min(a, b)`. -/
def minQ (a b : ℚ) : ℚ := if a ≤ b then a else b

/-- Python `max(a, b)`. -/
def maxQ (a b : ℚ) : ℚ := if a ≤ b then b else a

/-- Python `abs(x)`. -/
def absQ (x : ℚ) : ℚ := if x < 0 then -x else x

/-- `max(lo, min(hi, x))`, the clamping used at the end of
`predict_student_grade`. -/
def clampQ (lo hi x : ℚ) : ℚ := maxQ lo (minQ hi x)

/-- `calculate_difficulty_score` (backend variant, which guards the
`Class Ave` column access): 2.5 when the course is unknown or has no
usable average, else a five-band inverse mapping of the mean average. -/
def calculate_difficulty_score (df : DataFrame) (code : String) : ℚ :=
  if (matchingRows df code).isEmpty then 5/2
  else if (presentAves df code).isEmpty then 5/2
  else if listMean (presentAves df code) ≥ 37/10 then 3/2
  else if listMean (presentAves df code) ≥ 33/10 then 2
  else if listMean (presentAves df code) ≥ 3 then 5/2
  else if listMean (presentAves df code) ≥ 27/10 then 3
  else 7/2

/-- `course_code[:4] if len(course_code) >= 4 else ""` (note: the raw
argument, not its uppercased form). -/
def subjOf (code : String) : String :=
  if strLen code ≥ 4 then strTake 4 code else ("")

/-- The unclamped predicted grade when a profile is present: base mean,
plus the GPA adjustment, plus 0.2 when the subject is a strong subject. -/
def predGradeRaw (df : DataFrame) (p : StudentProfile) (code : String) : ℚ :=
  if p.strong_subjects.contains (subjOf code)
  then listMean (presentAves df code) + (p.current_gpa - 27/10) * (3/10) + 2/10
  else listMean (presentAves df code) + (p.current_gpa - 27/10) * (3/10)

/-- The unclamped confidence when a profile is present: 0.3 base + 0.2
profile + 0.3 strong-subject bonus + 0.2 difficulty-match bonus. -/
def confRaw (df : DataFrame) (p : StudentProfile) (code : String) : ℚ :=
  if absQ (calculate_difficulty_score df code - p.difficulty_preference.val) ≤ 1
  then (if p.strong_subjects.contains (subjOf code) then 3/10 + 2/10 + 3/10 else 3/10 + 2/10) + 2/10
  else (if p.strong_subjects.contains (subjOf code) then 3/10 + 2/10 + 3/10 else 3/10 + 2/10)

/-- `predict_student_grade` (backend variant).  `profile = none` models an
empty `self.student_profile` dict.  Returns the
`(predicted_grade, confidence)` pair. -/
def predict_student_grade (df : DataFrame) (profile : Option StudentProfile)
    (code : String) : ℚ × ℚ :=
  if (matchingRows df code).isEmpty then (0, 0)
  else if (presentAves df code).isEmpty then (0, 0)
  else
    match profile with
    | none => (clampQ 0 4 (listMean (presentAves df code)), clampQ 0 1 (3/10))
    | some p => (clampQ 0 4 (predGradeRaw df p code), clampQ 0 1 (confRaw df p code))

/-! ## Recommendation ranker (`get_course_recommendations`) -/

/-- The credits filter `filtered_df[filtered_df['Credits'] >= min_credits]`:
pandas comparison with a NaN cell yields `False`, so a row with an absent
credits value does not pass. -/
def creditsFilterRows (minCredits : ℚ) (rows : List Row) : List Row :=
  rows.filter (fun r =>
    match r.credits with
    | some c => decide (minCredits ≤ c)
    | none => false)

/-- The completed-course exclusion
(`if exclude_completed and self.student_profile:` — an empty profile dict
is falsy, hence the `none` case does not filter). -/
def completedFilter (profile : Option StudentProfile) (exclude : Bool)
    (rows : List Row) : List Row :=
  match profile with
  | some p =>
    if exclude then rows.filter (fun r => !(p.completed_courses.contains r.course))
    else rows
  | none => rows

/-- The subject filter (`if subject_filter:` — an empty list is falsy):
keep rows whose 4-character prefix is among the uppercased filter. -/
def subjectFilterRows (sf : Option (List String)) (rows : List Row) : List Row :=
  match sf with
  | some l =>
    if l.isEmpty then rows
    else rows.filter (fun r => (l.map upStr).contains (strTake 4 r.course))
  | none => rows

/-- The three row filters of `get_course_recommendations`, in source
order: completed-course exclusion, subject filter, credits filter (the
credits filter runs only when the frame has a `Credits` column). -/
def filterRows (df : DataFrame) (profile : Option StudentProfile)
    (excludeCompleted : Bool) (minCredits : ℚ)
    (subjectFilter : Option (List String)) : List Row :=
  if df.hasCredits then
    creditsFilterRows minCredits
      (subjectFilterRows subjectFilter (completedFilter profile excludeCompleted df.rows))
  else subjectFilterRows subjectFilter (completedFilter profile excludeCompleted df.rows)

/-- `drop_duplicates('Course')`: keep the first row for each course code. -/
def dedupAux (seen : List String) : List Row → List Row
  | [] => []
  | r :: rs =>
    if seen.contains r.course then dedupAux seen rs
    else r :: dedupAux (r.course :: seen) rs

def dedupByCourse (rows : List Row) : List Row := dedupAux [] rows

/-- `_generate_reasons` (string formatting abstracted to tags; the
`class_avg` argument can be a NaN cell, and `NaN >= 3.5` is false). -/
def generateReasons (profile : Option StudentProfile) (code : String)
    (predGrade difficulty : ℚ) (classAvg : Option ℚ) : List ReasonTag :=
  let l1 := if predGrade ≥ 7/2 then [ReasonTag.highPredicted] else []
  let l2 := match classAvg with
    | some v => if v ≥ 7/2 then [ReasonTag.highClassAvg] else []
    | none => []
  let l3 := match profile with
    | some p =>
      let subj := if strLen code ≥ 4 then strTake 4 code else ("")
      let a := if p.strong_subjects.contains subj then [ReasonTag.strongSubject subj] else []
      let b := if absQ (difficulty - p.difficulty_preference.val) ≤ 1/2 then [ReasonTag.difficultyMatch] else []
      a ++ b
    | none => []
  let l4 := if difficulty ≤ 2 then [ReasonTag.manageable] else []
  l1 ++ l2 ++ l3 ++ l4

/-- `_generate_warnings` (string formatting abstracted to tags). -/
def generateWarnings (profile : Option StudentProfile)
    (difficulty predGrade : ℚ) : List WarningTag :=
  let l1 := if difficulty ≥ 16/5 then [WarningTag.highDifficulty] else []
  let l2 := if predGrade < 27/10 then [WarningTag.belowAverage] else []
  let l3 := match profile with
    | some p => if p.current_gpa < 3 ∧ difficulty > 3 then [WarningTag.challengingForGpa] else []
    | none => []
  l1 ++ l2 ++ l3

/-- `course_row.get('Class Ave', 0.0)`: the cell (possibly NaN) when the
column exists, else the default 0.0. -/
def classAveField (df : DataFrame) (r : Row) : Option ℚ :=
  if df.hasClassAve then r.classAve else some 0

/-- Truncation toward zero, the behaviour of Python `int()` on a float. -/
def truncQ (q : ℚ) : ℤ := q.num / (q.den : ℤ)

/-- `int(course_row.get('Credits', 3))`. -/
def creditsField (df : DataFrame) (r : Row) : ℤ :=
  if df.hasCredits then
    match r.credits with
    | some c => truncQ c
    | none => 3
  else 3

/-- Construction of one `CourseRecommendation` inside the loop of
`get_course_recommendations`. -/
def mkRec (df : DataFrame) (profile : Option StudentProfile) (r : Row) :
    CourseRecommendation :=
  let pg := predict_student_grade df profile r.course
  let difficulty := calculate_difficulty_score df r.course
  let classAvg := classAveField df r
  { course_code := r.course
    course_name := ("Course ") ++ r.course
    predicted_grade := pg.1
    difficulty_score := difficulty
    class_average := classAvg
    credits := creditsField df r
    reasons := generateReasons profile r.course pg.1 difficulty classAvg
    warnings := generateWarnings profile difficulty pg.1
    confidence := pg.2
    term_offered := r.term.getD ("Unknown") }

/-- The composite ranking score `score_recommendation`. -/
def scoreRec (rec : CourseRecommendation) : ℚ :=
  rec.predicted_grade * rec.confidence - absQ (5/2 - rec.difficulty_score) * (1/10)

/-- Stable insertion preserving input order among equal scores
(Python `list.sort(key=..., reverse=True)` is a stable descending sort,
which determines the output list uniquely). -/
def insertRec (x : CourseRecommendation) : List CourseRecommendation → List CourseRecommendation
  | [] => [x]
  | y :: ys => if scoreRec x ≥ scoreRec y then x :: y :: ys else y :: insertRec x ys

def sortRecs : List CourseRecommendation → List CourseRecommendation
  | [] => []
  | x :: xs => insertRec x (sortRecs xs)

/-- `get_course_recommendations` (backend variant; the `semester` argument
of the single-file variant is unused there). -/
def get_course_recommendations (df : DataFrame) (profile : Option StudentProfile)
    (numCourses : Nat) (excludeCompleted : Bool) (minCredits : ℚ)
    (subjectFilter : Option (List String)) : List CourseRecommendation :=
  let uniq := dedupByCourse (filterRows df profile excludeCompleted minCredits subjectFilter)
  let recs := uniq.map (mkRec df profile)
  (sortRecs recs).take numCourses

/-! ## Schema normalizer (`load_grade_data`, post-parse part) -/

/-- A parsed-but-unnormalized table: header names plus rows of raw cells
(`none` models a missing/NaN cell). -/
structure RawTable where
  headers : List String
  rows : List (List (Option String))
deriving DecidableEq, Repr

/-- Cell of a raw row under a column index. -/
def cellAt (r : List (Option String)) (i : Nat) : Option String :=
  (r.get? i).join

/-- The course-column candidate list of the source, in order. -/
def possible_course_cols : List String :=
  ["Course", "course", "Class", "class", "Course Code", "course_code"]

/-- The course-column lookup of the source: the first candidate that
appears verbatim among the headers (`if col in self.df.columns`). -/
def courseIdx (headers : List String) : Option Nat :=
  (possible_course_cols.find? (fun c => headers.contains c)).bind
    (fun col => headers.findIdx? (fun h => h == col))

/-- Modelled from the spec for comparison: the spec describes the
course-column inference as a case-insensitive search of the header names
against the candidate list exemplified as "course", "class",
"course code".  (The source instead matches candidates verbatim.) -/
def specCourseColumnCI (headers : List String) : Option String :=
  headers.find? (fun h => [("course"), ("class"), ("course code")].contains (lowStr h))

/-- `'ave' in col.lower() or 'grade' in col.lower()`. -/
def isGradeHeader (h : String) : Bool :=
  containsSub ("ave").data (lowStr h).data || containsSub ("grade").data (lowStr h).data

/-- `'credit' in col.lower()`. -/
def isCreditHeader (h : String) : Bool :=
  containsSub ("credit").data (lowStr h).data

/-- The invalid-marker test
`.str.contains('#REF!|NaN|nan', case=False)`: case-insensitively, the code
contains "#REF!" or "nan". -/
def containsMarker (s : String) : Bool :=
  containsSub ("#REF!").data (upStr s).data || containsSub ("NAN").data (upStr s).data

/-- Digit-string value (`none` on a non-digit). -/
def digitsVal : List Char → Option Nat
  | [] => some 0
  | c :: cs =>
    if c.isDigit then
      (digitsVal cs).map (fun n => (c.toNat - 48) * 10 ^ cs.length + n)
    else none

/-- Unsigned decimal literal as a rational. -/
def parseUnsignedQ (cs : List Char) : Option ℚ :=
  let intPart := cs.takeWhile (fun c => !(c == '.'))
  let rest := cs.dropWhile (fun c => !(c == '.'))
  match rest with
  | [] => if intPart.isEmpty then none else (digitsVal intPart).map (fun n => (n : ℚ))
  | _ :: frac =>
    if frac.contains '.' then none
    else if intPart.isEmpty && frac.isEmpty then none
    else
      match digitsVal intPart, digitsVal frac with
      | some a, some b => some ((a : ℚ) + (b : ℚ) / ((10 ^ frac.length : ℕ) : ℚ))
      | _, _ => none

/-- Model of the `pd.to_numeric(..., errors='coerce')` coercion on one
string cell: a plain (optionally signed) decimal literal parses, anything
else coerces to NaN (`none`). -/
def parseNum (s : String) : Option ℚ :=
  match (stripStr s).data with
  | [] => none
  | '-' :: rest => (parseUnsignedQ rest).map Neg.neg
  | '+' :: rest => parseUnsignedQ rest
  | cs => parseUnsignedQ cs

/-- Normalization of one raw row once the course column index is known:
uppercase+strip the course cell, coerce the first grade-like and
credit-like columns, keep the `Term Name` cell. -/
def normRowOf (t : RawTable) (ci : Nat) (r : List (Option String)) : Row :=
  { course := stripStr (upStr ((cellAt r ci).getD (""))),
    classAve := (t.headers.findIdx? isGradeHeader).bind (fun gi => (cellAt r gi).bind parseNum),
    credits := (t.headers.findIdx? isCreditHeader).bind (fun qi => (cellAt r qi).bind parseNum),
    term := (t.headers.findIdx? (fun h => h == ("Term Name"))).bind (fun ti => cellAt r ti) }

/-- The cleaned row list: drop rows with a missing course cell
(`dropna`), normalize each, drop rows whose code contains a marker. -/
def normalizedRows (t : RawTable) (ci : Nat) : List Row :=
  ((t.rows.filter (fun r => (cellAt r ci).isSome)).map (normRowOf t ci)).filter
    (fun r => !containsMarker r.course)

instance : DecidableEq (Except (List String) DataFrame) := fun a b =>
  match a, b with
  | .ok x, .ok y => decidable_of_iff (x = y) (by simp)
  | .error x, .error y => decidable_of_iff (x = y) (by simp)
  | .ok _, .error _ => isFalse (by simp)
  | .error _, .ok _ => isFalse (by simp)

/-- The cleaning stage of `load_grade_data`, from the parsed raw table to
the normalized frame: infer the course column (error, reporting the
available columns, when no candidate is present), drop rows with a
missing course cell, uppercase+strip the course code, coerce the first
grade-like and credit-like columns to numbers, and drop rows whose course
code contains an invalid-data marker. -/
def normalize (t : RawTable) : Except (List String) DataFrame :=
  match courseIdx t.headers with
  | none => Except.error t.headers
  | some ci =>
    Except.ok { rows := normalizedRows t ci,
                hasClassAve := (t.headers.findIdx? isGradeHeader).isSome,
                hasCredits := (t.headers.findIdx? isCreditHeader).isSome }

/-! ## Manual fallback tokenizer (`_manual_csv_parse`) -/

/-- Finalization of one field: `current_field.strip().strip('"')`. -/
def finalizeField (cs : List Char) : String :=
  stripCharStr '\"' (stripStr ⟨cs⟩)

/-- The character loop of `_manual_csv_parse`: split on commas outside
double quotes; a quote character toggles the in-quotes state and is
dropped. -/
def splitFieldsAux (cur : List Char) (inQ : Bool) : List Char → List String
  | [] => [finalizeField cur]
  | c :: rest =>
    if c == '\"' then splitFieldsAux cur (!inQ) rest
    else if c == ',' && !inQ then finalizeField cur :: splitFieldsAux [] inQ rest
    else splitFieldsAux (cur ++ [c]) inQ rest

def splitLine (s : String) : List String := splitFieldsAux [] false s.data

/-- Pad with empty fields, then truncate, to the header width. -/
def padTrunc (n : Nat) (fs : List String) : List String :=
  (fs ++ List.replicate (n - fs.length) ("")).take n

/-- Data-row collection of `_manual_csv_parse` once the header is known:
skip lines that are empty after stripping, tokenize the rest, align each
record to the header width. -/
def mpRows (hs : List String) : List String → List (List String)
  | [] => []
  | l :: ls =>
    if (stripStr l).isEmpty then mpRows hs ls
    else padTrunc hs.length (splitLine (stripStr l)) :: mpRows hs ls

/-- `_manual_csv_parse` (backend variant) on the input split into lines:
the first non-empty line becomes the header, the rest become records;
`none` when no header or no data row was found (`if headers and rows:`
— the header, when found, is a non-empty field list, hence truthy). -/
def manualParse : List String → Option (List String × List (List String))
  | [] => none
  | l :: ls =>
    if (stripStr l).isEmpty then manualParse ls
    else
      if (mpRows (splitLine (stripStr l)) ls).isEmpty then none
      else some (splitLine (stripStr l), mpRows (splitLine (stripStr l)) ls)

/-! ## Helper lemmas -/

section TheoremsSection

attribute [local semireducible] Rat.mul Rat.inv Rat.add Rat.sub

theorem toNat_ofNatAux (n : Nat) (h : n.isValidChar) : (Char.ofNatAux n h).toNat = n := rfl

theorem upChar_idem (c : Char) : upChar (upChar c) = upChar c := by
  unfold upChar
  by_cases h : 97 ≤ c.toNat ∧ c.toNat ≤ 122
  · rw [dif_pos h, dif_neg]
    rw [toNat_ofNatAux]
    omega
  · rw [dif_neg h, dif_neg h]

theorem upChar_of_mem_upStr {c : Char} {s : String} (h : c ∈ (upStr s).data) :
    upChar c = c := by
  simp only [upStr] at h
  obtain ⟨d, _, rfl⟩ := List.mem_map.mp h
  exact upChar_idem d

theorem mem_of_mem_stripList {c : Char} {l : List Char} (h : c ∈ stripList l) : c ∈ l := by
  unfold stripList dropEndWhile at h
  rw [List.mem_reverse] at h
  have h2 := List.dropWhile_subset _ h
  rw [List.mem_reverse] at h2
  exact List.dropWhile_subset _ h2

theorem stripList_head_not_ws {l : List Char} {c : Char}
    (h : (stripList l).head? = some c) : c.isWhitespace = false := by
  unfold stripList dropEndWhile at h
  set A := l.dropWhile Char.isWhitespace with hA
  obtain ⟨t, ht⟩ := List.dropWhile_suffix (l := A.reverse) Char.isWhitespace
  set D := A.reverse.dropWhile Char.isWhitespace with hD
  have hAeq : A = D.reverse ++ t.reverse := by
    have := congrArg List.reverse ht
    simpa using this.symm
  have hDrev : D.reverse.head? = some c := h
  have hhdA : A.head? = some c := by
    rw [hAeq, List.head?_append, hDrev]
    rfl
  have hmain := List.head?_dropWhile_not Char.isWhitespace l
  rw [← hA] at hmain
  rw [hhdA] at hmain
  exact hmain

theorem stripList_getLast_not_ws {l : List Char} {c : Char}
    (h : (stripList l).getLast? = some c) : c.isWhitespace = false := by
  unfold stripList dropEndWhile at h
  rw [List.getLast?_reverse] at h
  have hmain := List.head?_dropWhile_not Char.isWhitespace
    ((l.dropWhile Char.isWhitespace).reverse)
  rw [h] at hmain
  exact hmain

theorem clampQ_lower (lo hi x : ℚ) : lo ≤ clampQ lo hi x := by
  unfold clampQ maxQ
  split
  · assumption
  · exact le_rfl

theorem clampQ_upper {lo hi : ℚ} (x : ℚ) (h : lo ≤ hi) : clampQ lo hi x ≤ hi := by
  unfold clampQ maxQ minQ
  split_ifs <;> first | exact le_rfl | assumption | linarith

theorem mem_insertRec {a x : CourseRecommendation} {l : List CourseRecommendation} :
    a ∈ insertRec x l ↔ a = x ∨ a ∈ l := by
  induction l with
  | nil => simp [insertRec]
  | cons y ys ih =>
    unfold insertRec
    split
    · simp
    · simp only [List.mem_cons, ih]
      tauto

theorem mem_sortRecs {a : CourseRecommendation} {l : List CourseRecommendation} :
    a ∈ sortRecs l ↔ a ∈ l := by
  induction l with
  | nil => simp [sortRecs]
  | cons x xs ih => simp [sortRecs, mem_insertRec, ih]

theorem dedupAux_mem_find (rows : List Row) :
    ∀ (seen : List String) (r : Row), r ∈ dedupAux seen rows →
      seen.contains r.course = false ∧
        rows.find? (fun x => x.course == r.course) = some r := by
  induction rows with
  | nil => intro seen r h; simp [dedupAux] at h
  | cons x xs ih =>
    intro seen r h
    unfold dedupAux at h
    split at h
    · rename_i hx
      obtain ⟨hseen, hfind⟩ := ih seen r h
      refine ⟨hseen, ?_⟩
      have hne : (x.course == r.course) = false := by
        rcases hbe : x.course == r.course with _ | _
        · rfl
        · exfalso
          rw [eq_of_beq hbe] at hx
          rw [hx] at hseen
          exact Bool.true_eq_false.mp hseen
      rw [List.find?_cons_of_neg _ (by simp [hne]), hfind]
    · rename_i hx
      rcases List.mem_cons.mp h with rfl | hmem
      · exact ⟨by simpa using hx, by rw [List.find?_cons_of_pos _ (by simp)]⟩
      · obtain ⟨hseen, hfind⟩ := ih _ r hmem
        rw [List.contains_cons] at hseen
        have h1 : (r.course == x.course) = false := by
          rcases hbe : r.course == x.course with _ | _
          · rfl
          · rw [hbe] at hseen; simp at hseen
        have h2 : seen.contains r.course = false := by
          rcases hbe : seen.contains r.course with _ | _
          · rfl
          · rw [hbe] at hseen; simp at hseen
        refine ⟨h2, ?_⟩
        have h1' : (x.course == r.course) = false := by
          rcases hbe : x.course == r.course with _ | _
          · rfl
          · rw [eq_of_beq hbe] at h1; simp at h1
        rw [List.find?_cons_of_neg _ (by simp [h1']), hfind]

theorem mem_of_mem_dedupByCourse {r : Row} {rows : List Row}
    (h : r ∈ dedupByCourse rows) : r ∈ rows :=
  List.mem_of_find?_eq_some (dedupAux_mem_find rows [] r h).2

/-- Every branch of `predict_student_grade` returns either the sentinel or
a clamped pair. -/
theorem predict_shape (df : DataFrame) (profile : Option StudentProfile) (code : String) :
    predict_student_grade df profile code = (0, 0) ∨
    ∃ a b, predict_student_grade df profile code = (clampQ 0 4 a, clampQ 0 1 b) := by
  unfold predict_student_grade
  split
  · exact Or.inl rfl
  · split
    · exact Or.inl rfl
    · cases profile <;> exact Or.inr ⟨_, _, rfl⟩

/-! ## Claims -/

/-- Concrete dataset of the spec's worked scenario: two COMP250 rows with
class averages 3.5 and 3.9. -/
def dfC1 : DataFrame :=
  { rows := [{ course := ("COMP250"), classAve := some (7/2), credits := none, term := none },
             { course := ("COMP250"), classAve := some (39/10), credits := none, term := none }],
    hasClassAve := true, hasCredits := false }

/-- Profile of the scenario: GPA 3.2, no strong subjects, MODERATE. -/
def pC1 : StudentProfile :=
  { current_gpa := 16/5, completed_courses := [], strong_subjects := [],
    difficulty_preference := DifficultyLevel.moderate }

/-- C1 (counterexample): on the scenario dataset and profile the code does
return the predicted grade 3.85, but the confidence is NOT 0.5 within
1e-6: the difficulty-match bonus fires (the course difficulty is 1.5,
within 1 of MODERATE = 2), so the confidence is 0.7. -/
theorem predict_comp250_confidence_counterexample :
    (predict_student_grade dfC1 (some pC1) ("COMP250")).1 = 77/20 ∧
    ¬ absQ ((predict_student_grade dfC1 (some pC1) ("COMP250")).2 - 1/2) ≤ 1/1000000 := by
  decide

/-- C1 (amended): for the scenario dataset (two COMP250 rows, averages
3.5 and 3.9) and a profile with GPA 3.2, no strong subjects and MODERATE
preference, `predict_student_grade` returns predicted grade
3.85 = 3.7 + (3.2 − 2.7)×0.3 and confidence 0.7 = 0.3 + 0.2 (profile)
+ 0.2 (difficulty bonus: the course difficulty 1.5 is within 1 of
MODERATE = 2).  Rationals make the equality exact, hence within 1e-6. -/
theorem predict_comp250_scenario :
    predict_student_grade dfC1 (some pC1) ("COMP250") = (77/20, 7/10) ∧
    calculate_difficulty_score dfC1 ("COMP250") = 3/2 ∧
    absQ (3/2 - DifficultyLevel.moderate.val) ≤ 1 := by
  decide

/-- C2: for every dataset, profile and course code, if no row matches the
uppercased code, or no matching row has a present class average, the
prediction is exactly the `(0.0, 0.0)` sentinel.  (The embedding is a
total function, so no exception can be raised.) -/
theorem predict_no_data_sentinel (df : DataFrame) (profile : Option StudentProfile)
    (code : String)
    (h : matchingRows df code = [] ∨ presentAves df code = []) :
    predict_student_grade df profile code = (0, 0) := by
  rcases h with h | h <;> simp [predict_student_grade, h]

/-- C2 witness: an empty dataset and an unknown course code. -/
theorem predict_no_data_sentinel_witness :
    predict_student_grade ⟨[], true, true⟩ none ("NOPE") = (0, 0) :=
  predict_no_data_sentinel _ _ _ (Or.inl rfl)

/-- C3: for every dataset (including the empty one), course code and
profile (including none), the predicted grade lies in [0, 4] and the
confidence in [0, 1]. -/
theorem predict_output_bounds (df : DataFrame) (profile : Option StudentProfile)
    (code : String) :
    0 ≤ (predict_student_grade df profile code).1 ∧
    (predict_student_grade df profile code).1 ≤ 4 ∧
    0 ≤ (predict_student_grade df profile code).2 ∧
    (predict_student_grade df profile code).2 ≤ 1 := by
  rcases predict_shape df profile code with h | ⟨a, b, h⟩ <;> rw [h]
  · norm_num
  · exact ⟨clampQ_lower _ _ _, clampQ_upper _ (by norm_num),
      clampQ_lower _ _ _, clampQ_upper _ (by norm_num)⟩

/-- C3 witness: the bounds instantiated at a concrete dataset. -/
theorem predict_output_bounds_witness :
    0 ≤ (predict_student_grade ⟨[], false, false⟩ none ("MATH240")).1 ∧
    (predict_student_grade ⟨[], false, false⟩ none ("MATH240")).1 ≤ 4 ∧
    0 ≤ (predict_student_grade ⟨[], false, false⟩ none ("MATH240")).2 ∧
    (predict_student_grade ⟨[], false, false⟩ none ("MATH240")).2 ≤ 1 :=
  predict_output_bounds ⟨[], false, false⟩ none ("MATH240")

/-- C4: the difficulty score always lies in {1.5, 2, 2.5, 3, 3.5}; it is
2.5 when no row matches or no matching row has a present average, and
otherwise it is the threshold mapping of the mean class average
(≥3.7 → 1.5, ≥3.3 → 2, ≥3.0 → 2.5, ≥2.7 → 3, else 3.5). -/
theorem difficulty_bands (df : DataFrame) (code : String) :
    (calculate_difficulty_score df code = 3/2 ∨ calculate_difficulty_score df code = 2 ∨
     calculate_difficulty_score df code = 5/2 ∨ calculate_difficulty_score df code = 3 ∨
     calculate_difficulty_score df code = 7/2) ∧
    ((matchingRows df code = [] ∨ presentAves df code = []) →
      calculate_difficulty_score df code = 5/2) ∧
    (presentAves df code ≠ [] →
      calculate_difficulty_score df code =
        if listMean (presentAves df code) ≥ 37/10 then 3/2
        else if listMean (presentAves df code) ≥ 33/10 then 2
        else if listMean (presentAves df code) ≥ 3 then 5/2
        else if listMean (presentAves df code) ≥ 27/10 then 3
        else 7/2) := by
  refine ⟨?_, ?_, ?_⟩
  · unfold calculate_difficulty_score
    split_ifs <;> tauto
  · intro h
    rcases h with h | h <;> simp [calculate_difficulty_score, h]
  · intro h
    have hm : ¬ (matchingRows df code).isEmpty = true := by
      intro hem
      apply h
      rw [List.isEmpty_iff] at hem
      simp [presentAves, hem]
    unfold calculate_difficulty_score
    rw [if_neg hm, if_neg (by simpa [List.isEmpty_iff] using h)]

/-- C4 witness: the empty dataset yields the default 2.5. -/
theorem difficulty_bands_witness :
    calculate_difficulty_score ⟨[], true, true⟩ ("NOPE") = 5/2 :=
  (difficulty_bands _ _).2.1 (Or.inl rfl)

/-- Dataset for the credits-filter claim: one row with credits 0 and
one row with an absent credits cell, both with usable averages. -/
def dfC5 : DataFrame :=
  { rows := [{ course := ("AAAA101"), classAve := some 3, credits := some 0, term := none },
             { course := ("BBBB102"), classAve := some 3, credits := none, term := none }],
    hasClassAve := true, hasCredits := true }

/-- C5 (counterexample): with `min_credits = 3` the ranker's credits
filter removes BOTH the row with credits 0 and the row with absent
credits (the pandas comparison `NaN >= 3` is False), so no
recommendation survives — the absent-credits row is not kept. -/
theorem credits_filter_absent_dropped :
    creditsFilterRows 3 dfC5.rows = [] ∧
    get_course_recommendations dfC5 none 8 true 3 none = [] := by
  decide

/-- C5 (amended): a row passes the ranker's credits filter exactly when
its credits value is present and at least `min_credits`; rows with an
absent credits value are removed as well, not retained. -/
theorem credits_filter_amended (minC : ℚ) (rows : List Row) (r : Row) :
    r ∈ creditsFilterRows minC rows ↔
      r ∈ rows ∧ ∃ c, r.credits = some c ∧ minC ≤ c := by
  unfold creditsFilterRows
  rw [List.mem_filter]
  cases hc : r.credits with
  | none => simp [hc]
  | some c => simp [hc]

/-- C5 witness: a present credits value of 4 passes the filter at
`min_credits = 3`. -/
theorem credits_filter_amended_witness :
    ({ course := ("CCCC103"), classAve := none, credits := some 4, term := none } : Row) ∈
      creditsFilterRows 3
        [{ course := ("CCCC103"), classAve := none, credits := some 4, term := none }] :=
  (credits_filter_amended 3 _ _).mpr ⟨by decide, 4, rfl, by norm_num⟩

theorem mem_of_mem_subjectFilterRows {sf : Option (List String)} {rows : List Row}
    {r : Row} (h : r ∈ subjectFilterRows sf rows) : r ∈ rows := by
  cases sf with
  | none => simpa [subjectFilterRows] using h
  | some l =>
    simp only [subjectFilterRows] at h
    split at h
    · exact h
    · exact List.mem_of_mem_filter h

theorem completedFilter_not_completed {p : StudentProfile} {rows : List Row} {r : Row}
    (h : r ∈ completedFilter (some p) true rows) :
    p.completed_courses.contains r.course = false := by
  simp only [completedFilter, if_true] at h
  have := (List.mem_filter.mp h).2
  simpa using this

/-- C6: for every dataset, profile, requested count, minimum credits and
subject filter, the recommendation list has length at most `count`, and
with `exclude_completed = True` no returned recommendation's course code
lies in the profile's completed courses. -/
theorem recommend_count_and_completed (df : DataFrame) (p : StudentProfile)
    (n : Nat) (minC : ℚ) (sf : Option (List String)) :
    (get_course_recommendations df (some p) n true minC sf).length ≤ n ∧
    ∀ rec ∈ get_course_recommendations df (some p) n true minC sf,
      rec.course_code ∉ p.completed_courses := by
  constructor
  · exact List.length_take_le _ _
  · intro rec hrec
    unfold get_course_recommendations at hrec
    have h1 := List.mem_of_mem_take hrec
    rw [mem_sortRecs] at h1
    obtain ⟨row, hrow, rfl⟩ := List.mem_map.mp h1
    have h2 := (dedupAux_mem_find _ [] _ hrow).2
    have h3 : row ∈ filterRows df (some p) true minC sf :=
      List.mem_of_find?_eq_some h2
    have h4 : row ∈ completedFilter (some p) true df.rows := by
      unfold filterRows at h3
      split at h3
      · exact mem_of_mem_subjectFilterRows (List.mem_of_mem_filter h3)
      · exact mem_of_mem_subjectFilterRows h3
    have h5 := completedFilter_not_completed h4
    intro hmem
    have h6 : p.completed_courses.contains (mkRec df (some p) row).course_code = true :=
      List.elem_iff.mpr hmem
    rw [show (mkRec df (some p) row).course_code = row.course from rfl] at h6
    rw [h5] at h6
    exact Bool.false_ne_true h6

def dfC6 : DataFrame :=
  { rows := [{ course := ("AAAA101"), classAve := some (7/2), credits := none, term := none }],
    hasClassAve := true, hasCredits := false }

def pC6 : StudentProfile :=
  { current_gpa := 3, completed_courses := [("BBBB999")], strong_subjects := [],
    difficulty_preference := DifficultyLevel.moderate }

def rowC6 : Row :=
  { course := ("AAAA101"), classAve := some (7/2), credits := none, term := none }

/-- C6 witness: a concrete one-course dataset; the returned
recommendation's code is not among the completed courses. -/
theorem recommend_count_and_completed_witness :
    (mkRec dfC6 (some pC6) rowC6).course_code ∉ pC6.completed_courses :=
  (recommend_count_and_completed dfC6 pC6 5 3 none).2 _ (by decide)

/-- C7 (counterexample): the header "COURSE" matches a candidate under
the case-insensitive search the spec describes, yet the normalizer fails
with the available columns: the source matches its candidate list
verbatim, case-sensitively. -/
theorem course_column_ci_counterexample :
    specCourseColumnCI [("COURSE")] = some ("COURSE") ∧
    normalize ⟨[("COURSE")], [[some ("COMP250")]]⟩ = Except.error [("COURSE")] := by
  decide

/-- C7 (amended): the normalizer picks the first candidate of the fixed
list `possible_course_cols` that occurs verbatim (case-sensitively) among
the headers; for every header set containing no candidate verbatim,
normalization fails with an error naming the available columns, and no
dataset is produced. -/
theorem course_column_amended (t : RawTable)
    (h : ∀ c ∈ possible_course_cols, c ∉ t.headers) :
    normalize t = Except.error t.headers := by
  have hidx : courseIdx t.headers = none := by
    unfold courseIdx
    have hfind : possible_course_cols.find? (fun c => t.headers.contains c) = none := by
      rw [List.find?_eq_none]
      intro c hc hcon
      exact h c hc (List.elem_iff.mp hcon)
    rw [hfind]
    rfl
  unfold normalize
  rw [hidx]

/-- C7 witness: a header set with no candidate at all. -/
theorem course_column_amended_witness :
    normalize ⟨[("Foo")], [[some ("X")]]⟩ = Except.error [("Foo")] :=
  course_column_amended _ (by decide)

/-- Raw table whose course cell is present but whitespace-only. -/
def tC8 : RawTable := ⟨[("Course"), ("Class Ave")], [[some (" "), some ("3.5")]]⟩

/-- The frame `normalize` produces for `tC8`. -/
def dfC8 : DataFrame :=
  { rows := [{ course := (""), classAve := some (7/2), credits := none, term := none }],
    hasClassAve := true, hasCredits := false }

/-- C8 (counterexample): a present but whitespace-only course cell
survives the missing-cell drop (`dropna` removes only NaN cells) and
normalizes to the EMPTY course code, which is retained — so "every
retained row has a non-empty course code" fails on the code. -/
theorem normalize_retains_empty_code :
    normalize tC8 = Except.ok dfC8 ∧ dfC8.rows.map Row.course = [("")] := by
  decide

/-- C8 (amended): every row retained by normalization has an uppercase
(fixed by `upper`), trimmed (no boundary whitespace) course code that
contains no invalid-data marker — but the code can be empty when the
original cell was present yet whitespace-only; consequently, for any code
containing an error marker, the normalized dataset has zero rows with
that code. -/
theorem normalize_course_invariants (t : RawTable) (df : DataFrame)
    (h : normalize t = Except.ok df) :
    (∀ r ∈ df.rows,
      (∀ c ∈ r.course.data, upChar c = c) ∧
      (∀ c, r.course.data.head? = some c → c.isWhitespace = false) ∧
      (∀ c, r.course.data.getLast? = some c → c.isWhitespace = false) ∧
      containsMarker r.course = false) ∧
    (∀ code, containsMarker code = true →
      df.rows.filter (fun r => r.course == code) = []) := by
  unfold normalize at h
  cases hci : courseIdx t.headers with
  | none => rw [hci] at h; exact absurd h (by simp)
  | some ci =>
    rw [hci] at h
    injection h with h2
    subst h2
    constructor
    · intro r hr
      simp only [normalizedRows] at hr
      have hmk := (List.mem_filter.mp hr).2
      obtain ⟨raw, hraw, rfl⟩ := List.mem_map.mp (List.mem_of_mem_filter hr)
      refine ⟨?_, ?_, ?_, ?_⟩
      · intro c hc
        exact upChar_of_mem_upStr (mem_of_mem_stripList hc)
      · intro c hc
        exact stripList_head_not_ws hc
      · intro c hc
        exact stripList_getLast_not_ws hc
      · simpa using hmk
    · intro code hcode
      rw [List.filter_eq_nil_iff]
      intro r hr hbeq
      simp only [normalizedRows] at hr
      have hmk := (List.mem_filter.mp hr).2
      rw [eq_of_beq hbeq, hcode] at hmk
      simp at hmk

theorem padTrunc_length (n : Nat) (fs : List String) : (padTrunc n fs).length = n := by
  simp only [padTrunc, List.length_take, List.length_append, List.length_replicate]
  omega

theorem mpRows_length {hs : List String} :
    ∀ {ls : List String} {r : List String}, r ∈ mpRows hs ls → r.length = hs.length := by
  intro ls
  induction ls with
  | nil => intro r h; simp [mpRows] at h
  | cons l ls ih =>
    intro r h
    simp only [mpRows] at h
    split at h
    · exact ih h
    · rcases List.mem_cons.mp h with rfl | h2
      · exact padTrunc_length _ _
      · exact ih h2

theorem mpRows_filter (hs : List String) :
    ∀ ls : List String,
      mpRows hs (ls.filter (fun l => !(stripStr l).isEmpty)) = mpRows hs ls := by
  intro ls
  induction ls with
  | nil => rfl
  | cons l ls ih =>
    by_cases hl : (stripStr l).isEmpty
    · simp [List.filter_cons, hl, mpRows, ih]
    · simp [List.filter_cons, hl, mpRows, ih]

/-- C9: the manual fallback tokenizer is a total function (so it can
never raise): lines empty after stripping are skipped entirely (parsing
the pre-filtered line list gives the identical result), the first
non-empty line becomes the header, and every emitted record is padded
with empty fields or truncated to exactly the header's field count. -/
theorem manualParse_total_spec :
    (∀ lines : List String,
       manualParse (lines.filter (fun l => !(stripStr l).isEmpty)) = manualParse lines) ∧
    (∀ (lines : List String) (hs : List String) (rows : List (List String)),
       manualParse lines = some (hs, rows) →
       (∀ r ∈ rows, r.length = hs.length) ∧
       ∃ l, (lines.filter (fun l => !(stripStr l).isEmpty)).head? = some l ∧
            hs = splitLine (stripStr l)) := by
  constructor
  · intro lines
    induction lines with
    | nil => rfl
    | cons l ls ih =>
      by_cases hl : (stripStr l).isEmpty
      · simp [List.filter_cons, hl, manualParse, ih]
      · simp [List.filter_cons, hl, manualParse, mpRows_filter]
  · intro lines
    induction lines with
    | nil => intro hs rows h; simp [manualParse] at h
    | cons l ls ih =>
      intro hs rows h
      simp only [manualParse] at h
      split at h
      · rename_i hl
        obtain ⟨h1, l', hl1, hl2⟩ := ih hs rows h
        refine ⟨h1, l', ?_, hl2⟩
        rw [List.filter_cons_of_neg (by simpa using hl)]
        exact hl1
      · rename_i hl
        split at h
        · exact absurd h (by simp)
        · injection h with h2
          have hfst := congrArg Prod.fst h2
          have hsnd := congrArg Prod.snd h2
          simp only at hfst hsnd
          subst hfst
          subst hsnd
          constructor
          · intro r hr
            exact mpRows_length hr
          · refine ⟨l, ?_, rfl⟩
            rw [List.filter_cons_of_pos (by simpa using hl)]
            rfl

/-- C9 witness: a short record is padded to the header width. -/
theorem manualParse_total_spec_witness :
    ([("1"), ("2"), ("")] : List String).length =
      ([("a"), ("b"), ("c")] : List String).length :=
  (manualParse_total_spec.2 [("a,b,c"), ("1,2")] [("a"), ("b"), ("c")]
      [[("1"), ("2"), ("")]] (by decide)).1 _ (by decide)

/-- C8 witness: a well-formed one-row table; for the marker code "#REF!"
the normalized dataset has zero rows. -/
theorem normalize_course_invariants_witness :
    (normalize ⟨[("Course")], [[some ("comp250")]]⟩).toOption.isSome = true ∧
    ((⟨[{ course := ("COMP250"), classAve := none, credits := none, term := none }],
        false, false⟩ : DataFrame)).rows.filter (fun r => r.course == ("#REF!")) = [] :=
  ⟨by decide,
    (normalize_course_invariants ⟨[("Course")], [[some ("comp250")]]⟩ _ (by decide)).2
      ("#REF!") (by decide)⟩

/-- The dedup survivor row of `dfC1`'s COMP250 (its first row). -/
def rowC10 : Row :=
  { course := ("COMP250"), classAve := some (7/2), credits := none, term := none }

/-- C10: every returned recommendation's `class_average` is the
`Class Ave` cell of the deduplication survivor — the FIRST filtered row
with that course code — not the mean over all matching rows; on the
two-row COMP250 dataset the recommendation carries class_average 3.5
while the prediction engine's base mean (the predicted grade, with no
profile) is 3.7. -/
theorem recommend_class_average_from_first_row :
    (∀ (df : DataFrame) (profile : Option StudentProfile) (n : Nat) (ex : Bool)
       (minC : ℚ) (sf : Option (List String)) (rec : CourseRecommendation),
       rec ∈ get_course_recommendations df profile n ex minC sf →
       ∃ row, (filterRows df profile ex minC sf).find?
                (fun x => x.course == rec.course_code) = some row ∧
         rec.class_average = classAveField df row ∧
         rec.predicted_grade = (predict_student_grade df profile row.course).1) ∧
    ((get_course_recommendations dfC1 none 8 false 3 none).map
        (fun rec => rec.class_average) = [some (7/2)] ∧
     (predict_student_grade dfC1 none ("COMP250")).1 = 37/10) := by
  constructor
  · intro df profile n ex minC sf rec hrec
    unfold get_course_recommendations at hrec
    have h1 := List.mem_of_mem_take hrec
    rw [mem_sortRecs] at h1
    obtain ⟨row, hrow, rfl⟩ := List.mem_map.mp h1
    exact ⟨row, (dedupAux_mem_find _ [] _ hrow).2, rfl, rfl⟩
  · exact ⟨by decide, by decide⟩

/-- C10 witness: the COMP250 recommendation's class average is the first
row's 3.5, and its predicted grade is computed from the 3.7 mean. -/
theorem recommend_class_average_from_first_row_witness :
    ∃ row, (filterRows dfC1 none false 3 none).find?
             (fun x => x.course == (mkRec dfC1 none rowC10).course_code) = some row ∧
      (mkRec dfC1 none rowC10).class_average = classAveField dfC1 row ∧
      (mkRec dfC1 none rowC10).predicted_grade =
        (predict_student_grade dfC1 none row.course).1 :=
  recommend_class_average_from_first_row.1 dfC1 none 8 false 3 none _ (by decide)

end TheoremsSection

end Advisor
